import Mathlib

set_option maxRecDepth 8192

/-!
Shallow embedding of `crystal_barista.go` (github.com/chris-vest/crystal_barista),
together with theorems settling the spec claims about it.

Go strings are modelled as Lean `String` (both are UTF-8): Go's `len(s)` is
`String.utf8ByteSize`, Go's `[]rune(s)` is `String.data`. A Go runtime panic is
modelled as `Option.none`.
-/

namespace CrystalBarista

/-- Go `len(s)` on a string: the UTF-8 byte length. -/
def goLen (s : String) : Int := (s.utf8ByteSize : Int)

/-- Go `len([]rune(s))`: the rune (character) count. -/
def runeLen (s : String) : Int := (s.length : Int)

/-- The ellipsis glyph `⋯` (U+22EF, 3 bytes in UTF-8) used by `truncate`. -/
def ellipsisChar : Char := '⋯'

/-- The ellipsis glyph as a string. -/
def ellipsis : String := "⋯"

/-- Embedding of `truncate(in string, l int) string` (crystal_barista.go:53-67)
with exact (unbounded) integer arithmetic. `none` models the Go runtime panic
from the negative slice bound `[]rune(in)[:l-1]` when `l = 0` and the string
does not fit. `truncateInt64` below makes Go's 64-bit wrap-around explicit;
the two agree at every limit in the int64 range other than `-2^63`
(math.MinInt64) on strings of Go-representable length. -/
def truncate (s : String) (l : Int) : Option String :=
  let fromStart : Bool := decide (l < 0)
  let l : Int := if l < 0 then -l else l
  let inLen : Int := runeLen s
  if inLen ≤ l then some s
  else if fromStart then
    some (ellipsis ++ String.mk (s.data.drop (inLen - l + 1).toNat))
  else if l = 0 then none
  else some (String.mk (s.data.take (l - 1).toNat) ++ ellipsis)

/-- Two's-complement reduction to Go's signed 64-bit `int` range
`[-9223372036854775808, 9223372036854775808)`. -/
def intWrap (x : Int) : Int :=
  (x + 9223372036854775808) % 18446744073709551616 - 9223372036854775808

/-- Embedding of `truncate` (crystal_barista.go:53-67) with Go's 64-bit `int`
arithmetic made explicit: the negation `l = -l` (go:57) and the slice index
`inLen-l+1` (go:64) wrap, and a rune-slice lower bound outside `[0, inLen]`
panics (`none`). At `l = -9223372036854775808` (math.MinInt64) the negation
wraps back to the same negative value and the slice index overflows, so this
function panics for every string of Go-representable length. -/
def truncateInt64 (s : String) (l : Int) : Option String :=
  let fromStart : Bool := decide (l < 0)
  let l : Int := if l < 0 then intWrap (-l) else l
  let inLen : Int := runeLen s
  if inLen ≤ l then some s
  else if fromStart then
    let idx := intWrap (inLen - l + 1)
    if idx < 0 ∨ inLen < idx then none
    else some (ellipsis ++ String.mk (s.data.drop idx.toNat))
  else if l = 0 then none
  else some (String.mk (s.data.take (l - 1).toNat) ++ ellipsis)

/-- The artist/title budgeting of `mediaFormatFunc` (crystal_barista.go:101-104):
`artist := truncate(m.Artist, 35)`, `title := truncate(m.Title, 70-len(artist))`,
and if `len(title) < 35` then `artist = truncate(m.Artist, 35-len(title))`.
Budgets use `goLen` (Go byte length). `none` models a panic in `truncate`. -/
def mediaFormatText (artistIn titleIn : String) : Option (String × String) :=
  match truncate artistIn 35 with
  | none => none
  | some artist =>
    match truncate titleIn (70 - goLen artist) with
    | none => none
    | some title =>
      if goLen title < 35 then
        match truncate artistIn (35 - goLen title) with
        | none => none
        | some artist2 => some (artist2, title)
      else some (artist, title)

/-- The budgeting as claim C4 states it: the same computation but with every
budget derived from the other field's character count (`runeLen`) instead of
its byte length. Spec variant, only for comparison with `mediaFormatText`. -/
def mediaFormatTextChars (artistIn titleIn : String) : Option (String × String) :=
  match truncate artistIn 35 with
  | none => none
  | some artist =>
    match truncate titleIn (70 - runeLen artist) with
    | none => none
    | some title =>
      if runeLen title < 35 then
        match truncate artistIn (35 - runeLen title) with
        | none => none
        | some artist2 => some (artist2, title)
      else some (artist, title)

/-- `media.PlaybackStatus` values used by the bar. -/
inductive PlaybackStatus
  | playing
  | paused
  | stopped
  | disconnected
  deriving DecidableEq

/-- The fields of `media.Info` that `mediaFormatFunc` reads. -/
structure MediaInfo where
  playbackStatus : PlaybackStatus
  artist : String
  title : String

/-- The media module's `bar.Output`, reduced to what the claims observe:
`nil` (the Go nil output) or the formatted artist/title pair. -/
inductive MediaBarOutput
  | nil
  | media (artist title : String)
  deriving DecidableEq

/-- Embedding of `mediaFormatFunc` (crystal_barista.go:97-115): returns the Go
nil output for Stopped/Disconnected, otherwise the budgeted artist/title.
`none` models a panic inside `truncate`. -/
def mediaFormatFunc (m : MediaInfo) : Option MediaBarOutput :=
  if m.playbackStatus = .stopped ∨ m.playbackStatus = .disconnected then
    some .nil
  else
    (mediaFormatText m.artist m.title).map (fun p => .media p.1 p.2)

/-- The segment built by `makeIconOutput(key)` (crystal_barista.go:191-193):
`outputs.Pango(spacer, pango.Icon(key), spacer)`, reduced to its icon key. -/
structure IconSegment where
  iconKey : String
  deriving DecidableEq

/-- Embedding of `makeIconOutput` (crystal_barista.go:191-193). -/
def makeIconOutput (key : String) : IconSegment := ⟨key⟩

/-- Modelled from the spec: the `modal.Controller` returned by
`mainModal.Build()` (crystal_barista.go:669). Its implementation lives in the
external `barista.run/group/modal` package, not in this repository, so it is
modelled from the spec's Modal Controller description: a ModalState holding
which Mode, if any, is currently expanded (at most one at a time), and each
Mode's last-set override Segment. -/
structure ModalController where
  expanded : Option String
  overrides : String → Option IconSegment

/-- Modelled from the spec: `toggle(modeKey)` — if currently
`Expanded(modeKey)`, go to `Collapsed`; otherwise go to `Expanded(modeKey)`,
collapsing whatever was previously expanded. -/
def ModalController.toggle (c : ModalController) (k : String) : ModalController :=
  if c.expanded = some k then { c with expanded := none }
  else { c with expanded := some k }

/-- Modelled from the spec: `setOverride(modeKey, segment)` (the Go
`Controller.SetOutput`) — updates that Mode's override Segment without
changing the current Collapsed/Expanded state. -/
def ModalController.setOutput (c : ModalController) (k : String)
    (seg : Option IconSegment) : ModalController :=
  { c with overrides := fun k2 => if k2 = k then seg else c.overrides k2 }

/-- The override Segments registered on `mainModal` before `Build()`
(crystal_barista.go:627-666): each `Mode(key).SetOutput(...)` call. -/
def initialOverrides : String → Option IconSegment := fun k =>
  if k = "kubeContext" then some (makeIconOutput "mdi-ship-wheel")
  else if k = "network" then some (makeIconOutput "mdi-ethernet")
  else if k = "media" then some (makeIconOutput "mdi-music")
  else if k = "sysinfo" then some (makeIconOutput "mdi-chart-line-stacked")
  else if k = "battery" then none
  else if k = "weather" then some (makeIconOutput "mdi-alert-box-outline")
  else if k = "timezones" then some (makeIconOutput "mdi-clock-outline")
  else none

/-- The controller state produced by `mainModal.Build()`: initially Collapsed
(no Mode expanded), holding the registered override Segments. -/
def mainModalBuilt : ModalController :=
  { expanded := none, overrides := initialOverrides }

/-- Running a sequence of `Toggle` calls on a controller. -/
def runToggles (c : ModalController) (ks : List String) : ModalController :=
  ks.foldl ModalController.toggle c

/-- At most one Mode is Expanded in controller state `c`. -/
def atMostOneExpanded (c : ModalController) : Prop :=
  ∀ k1 k2 : String, c.expanded = some k1 → c.expanded = some k2 → k1 = k2

/-- `battery.Status` values used by the bar. -/
inductive BatteryStatus
  | disconnected
  | charging
  | discharging
  | notCharging
  | full
  | unknown
  deriving DecidableEq

/-- The fields of `battery.Info` that the battery output function reads;
`remainingPct` stands for `i.RemainingPct()`, and `remainingHours` /
`remainingMinutes` for `int(rem.Hours())` and `int(rem.Minutes())%60` of
`rem := i.RemainingTime()`. -/
structure BatteryInfo where
  status : BatteryStatus
  remainingPct : Int
  remainingHours : Int
  remainingMinutes : Int

/-- The battery icon name computation (crystal_barista.go:291-301). -/
def batteryIconName (i : BatteryInfo) : String :=
  let iconName := "battery"
  let iconName := if i.status = .charging then iconName ++ "-charging" else iconName
  let tenth := i.remainingPct.tdiv 10
  if tenth = 0 then iconName ++ "-outline"
  else if tenth < 10 then iconName ++ "-" ++ toString tenth ++ "0"
  else iconName

/-- The urgency threshold of the battery output (crystal_barista.go:330-332). -/
def batteryUrgent (i : BatteryInfo) : Bool := i.remainingPct ≤ 5

/-- The colour thresholds of the battery output (crystal_barista.go:330-339). -/
def batteryColor (i : BatteryInfo) : Option String :=
  if i.remainingPct ≤ 5 then none
  else if i.remainingPct ≤ 25 then some "#FF5555"
  else if i.remainingPct ≤ 50 then some "#FFB86C"
  else if i.remainingPct ≤ 100 then some "#50FA7B"
  else none

/-- The battery module's output, reduced to the data the claims observe. -/
structure BatterySegOut where
  iconName : String
  hours : Int
  minutes : Int
  pct : Int
  urgent : Bool
  color : Option String
  deriving DecidableEq

/-- Embedding of the battery output function (crystal_barista.go:287-341).
The Go closure reads and writes the global `mainModalController`, so the
controller state is threaded explicitly; the Go nil output is `none`. -/
def batteryOutputFunc (c : ModalController) (i : BatteryInfo) :
    ModalController × Option BatterySegOut :=
  if i.status = .disconnected ∨ i.status = .unknown then (c, none)
  else
    let iconName := batteryIconName i
    let c := c.setOutput "battery" (some (makeIconOutput ("mdi-" ++ iconName)))
    (c, some { iconName := iconName, hours := i.remainingHours,
               minutes := i.remainingMinutes, pct := i.remainingPct,
               urgent := batteryUrgent i, color := batteryColor i })

/-- The fields of `wlan.Info` that the wlan output function reads;
`connecting` and `connected` stand for `i.Connecting()` and `i.Connected()`. -/
structure WlanInfo where
  connecting : Bool
  connected : Bool
  ssid : String
  accessPointMAC : String

/-- The wlan module's output, reduced to the data the claims observe. -/
inductive WlanOut
  | connectingOut
  | full (ssid mac : String)
  deriving DecidableEq

/-- Embedding of the wlan output function (crystal_barista.go:343-376); the
Go nil output is `none`. -/
def wlanOutputFunc (c : ModalController) (i : WlanInfo) :
    ModalController × Option WlanOut :=
  if !i.connecting && !i.connected then
    (c.setOutput "network" (some (makeIconOutput "mdi-ethernet")), none)
  else
    let c := c.setOutput "network" (some (makeIconOutput "mdi-wifi"))
    if i.connecting then (c, some .connectingOut)
    else (c, some (.full i.ssid i.accessPointMAC))

/-- `weather.Condition` values matched by the weather output function;
`unknown` stands for any condition not named in the switch. -/
inductive WeatherCondition
  | thunderstorm
  | tropicalStorm
  | hurricane
  | drizzle
  | hail
  | rain
  | snow
  | sleet
  | mist
  | smoke
  | whirls
  | haze
  | fog
  | clear
  | partlyCloudy
  | cloudy
  | overcast
  | tornado
  | windy
  | unknown
  deriving DecidableEq

/-- The fields of `weather.Weather` that the icon choice reads; times are
modelled as integers, `none` standing for a zero `time.Time`. -/
structure WeatherInfo where
  condition : WeatherCondition
  sunrise : Option Int
  sunset : Option Int

/-- The weather icon name switch (crystal_barista.go:403-443); `now` is the
value of `time.Now()` at the call. -/
def weatherIconName (w : WeatherInfo) (now : Int) : String :=
  let iconName :=
    match w.condition with
    | .thunderstorm | .tropicalStorm | .hurricane => "stormy"
    | .drizzle | .hail => "shower"
    | .rain => "downpour"
    | .snow | .sleet => "snow"
    | .mist | .smoke | .whirls | .haze | .fog => "windy-cloudy"
    | .clear =>
      if (match w.sunset with | some t => decide (t < now) | none => false) then "night"
      else if (match w.sunrise with | some t => decide (now < t) | none => false) then "night"
      else "sunny"
    | .partlyCloudy => "partly-sunny"
    | .cloudy | .overcast => "cloudy"
    | .tornado | .windy => "windy"
    | .unknown => ""
  if iconName = "" then "warning-outline" else "weather-" ++ iconName

/-- Embedding of the weather output function's controller effect and icon
choice (crystal_barista.go:402-467): it always calls
`mainModalController.SetOutput("weather", makeIconOutput("mdi-"+iconName))`
and returns a non-nil output, here reduced to the icon name. -/
def weatherOutputFunc (c : ModalController) (w : WeatherInfo) (now : Int) :
    ModalController × String :=
  let iconName := weatherIconName w now
  (c.setOutput "weather" (some (makeIconOutput ("mdi-" ++ iconName))), iconName)

/-- The fields of `netinfo.State` that the netinfo output function reads;
`enabled` and `connecting` stand for `i.Enabled()` and `i.Connecting()`. -/
structure NetinfoState where
  enabled : Bool
  connecting : Bool
  ips : List String
  name : String

/-- The netinfo module's output, reduced to the data the claims observe. -/
inductive NetinfoOut
  | degraded (name : String)
  | connectedOut (name ip : String)
  deriving DecidableEq

/-- Embedding of the netinfo output function (crystal_barista.go:587-595);
the Go nil output is `none`. -/
def netOutputFunc (i : NetinfoState) : Option NetinfoOut :=
  if !i.enabled then none
  else if i.connecting || i.ips.length < 1 then some (.degraded i.name)
  else some (.connectedOut i.name (i.ips.headD ""))

/-- Observable events of `main`'s startup sequence (crystal_barista.go:236-670). -/
inductive MainEvent
  | setupOauth
  | panicked
  | moduleConstructed (name : String)
  | netlinkSubscribe
  | netlinkGet
  | netlinkUnsubscribe
  | tzClockCreated (tz : String)
  | modeRegistered (key : String)
  | build
  | runBar
  deriving DecidableEq

/-- Outcomes of the external calls `main` makes during startup:
whether `setupOauthEncryption` returns an error, whether `$HOME` is on a
separate device from `/`, and which timezone names `clock.ZoneByName`
resolves. -/
structure ExternalEnv where
  oauthFails : Bool
  homeOnSeparateDevice : Bool
  zoneByName : String → Bool

/-- The timezone names passed to `makeTzClock` (crystal_barista.go:662-666),
in call order. -/
def tzNames : List String :=
  ["America/Los_Angeles", "America/New_York", "Etc/UTC",
   "Europe/Copenhagen", "Asia/Tokyo"]

/-- The tail of the startup trace: the `makeTzClock` calls for the
`timezones` Mode, then `Build()` and `barista.Run`. `makeTzClock` panics when
`clock.ZoneByName` fails (crystal_barista.go:277-285). -/
def tzClocksThenRun (resolve : String → Bool) : List String → List MainEvent
  | [] => [.build, .runBar]
  | tz :: rest =>
    if resolve tz then .tzClockCreated tz :: tzClocksThenRun resolve rest
    else [.panicked]

/-- The modules `main` constructs before the netlink one-shot read
(crystal_barista.go:260-572), in program order. -/
def preNetlinkModules : List MainEvent :=
  [.moduleConstructed "localdate", .moduleConstructed "localtime",
   .moduleConstructed "battery", .moduleConstructed "wlan",
   .moduleConstructed "volume", .moduleConstructed "weather",
   .moduleConstructed "kubeContext", .moduleConstructed "kubeNs",
   .moduleConstructed "loadAvg", .moduleConstructed "loadAvgDetail",
   .moduleConstructed "uptime", .moduleConstructed "freeMem",
   .moduleConstructed "swapMem", .moduleConstructed "temp"]

/-- The modules `main` constructs after the netlink one-shot read
(crystal_barista.go:577-625), in program order; `homeDiskspace` only exists
when `$HOME` is on a separate device (crystal_barista.go:608-613). -/
def postNetlinkModules (homeSep : Bool) : List MainEvent :=
  [.moduleConstructed "netspeed", .moduleConstructed "netinfo"] ++
  (if homeSep then [.moduleConstructed "homeDiskspace"] else []) ++
  [.moduleConstructed "rootDiskspace", .moduleConstructed "mainDiskio",
   .moduleConstructed "media"]

/-- The `mainModal.Mode(key)` registrations (crystal_barista.go:627-666),
in program order. -/
def modeRegistrationEvents : List MainEvent :=
  [.modeRegistered "kubeContext", .modeRegistered "network",
   .modeRegistered "media", .modeRegistered "sysinfo",
   .modeRegistered "battery", .modeRegistered "weather",
   .modeRegistered "timezones"]

/-- The startup trace of `main` (crystal_barista.go:236-670) as a function of
the external outcomes: `setupOauthEncryption` first (a panic on error,
crystal_barista.go:256-258), then module construction, the netlink
subscribe/get/unsubscribe triple (crystal_barista.go:574-576), the remaining
modules, the Mode registrations, the timezone clocks, `Build()`, and
`barista.Run` (crystal_barista.go:668-670). -/
def mainStartup (env : ExternalEnv) : List MainEvent :=
  .setupOauth ::
    (if env.oauthFails then [.panicked]
     else
       preNetlinkModules ++
       [.netlinkSubscribe, .netlinkGet, .netlinkUnsubscribe] ++
       postNetlinkModules env.homeOnSeparateDevice ++
       modeRegistrationEvents ++
       tzClocksThenRun env.zoneByName tzNames)

/-- The mode keys passed to `mainModalController.Toggle` by click handlers
(crystal_barista.go:273, 311, 320, 361, 479, 510, 545). -/
def toggledModeKeys : List String :=
  ["timezones", "battery", "network", "kubeContext", "sysinfo"]

/-- Whether a `Mode(k)` registration occurs in the trace strictly before the
`Build()` event. -/
def registeredBeforeBuild (k : String) : List MainEvent → Bool
  | [] => false
  | .build :: _ => false
  | .modeRegistered k2 :: rest => k2 == k || registeredBeforeBuild k rest
  | _ :: rest => registeredBeforeBuild k rest



/-- C1: the Controller from `mainModal.Build()` is a state machine with
Collapsed as the initial state; every sequence of Toggle calls leaves at most
one Mode Expanded; Toggle(k) from Expanded(k) yields Collapsed, Toggle(k)
from any other state yields Expanded(k); Toggle(A) then Toggle(A) returns to
Collapsed, and Toggle(A) then Toggle(B) ends in Expanded(B). -/
theorem modal_toggle_state_machine :
    mainModalBuilt.expanded = none ∧
    (∀ ks, atMostOneExpanded (runToggles mainModalBuilt ks)) ∧
    (∀ (c : ModalController) (k : String), c.expanded = some k →
      (c.toggle k).expanded = none) ∧
    (∀ (c : ModalController) (k : String), c.expanded ≠ some k →
      (c.toggle k).expanded = some k) ∧
    (∀ a, ((mainModalBuilt.toggle a).toggle a).expanded = none) ∧
    (∀ a b, a ≠ b → ((mainModalBuilt.toggle a).toggle b).expanded = some b) := by
  refine ⟨rfl, ?_, ?_, ?_, ?_, ?_⟩
  · intro ks k1 k2 h1 h2
    rw [h1] at h2
    exact Option.some.inj h2
  · intro c k h
    simp [ModalController.toggle, h]
  · intro c k h
    simp [ModalController.toggle, h]
  · intro a
    simp [ModalController.toggle, mainModalBuilt]
  · intro a b hab
    simp [ModalController.toggle, mainModalBuilt, hab]

/-- Witness for C1 at concrete inputs. -/
theorem modal_toggle_state_machine_witness :
    ((mainModalBuilt.toggle "network").toggle "battery").expanded = some "battery" ∧
    (mainModalBuilt.toggle "network").expanded = some "network" ∧
    atMostOneExpanded (runToggles mainModalBuilt ["network", "battery"]) :=
  ⟨modal_toggle_state_machine.2.2.2.2.2 "network" "battery" (by decide),
   modal_toggle_state_machine.2.2.2.1 mainModalBuilt "network" (by simp [mainModalBuilt]),
   modal_toggle_state_machine.2.1 ["network", "battery"]⟩

/-- C2: `SetOutput(k, s)` changes only Mode k's override Segment and leaves
the Collapsed/Expanded state unchanged; the SetOutput calls in the battery,
wlan and weather update paths never change which Mode is expanded. -/
theorem setOutput_frame :
    (∀ (c : ModalController) (k : String) (seg : Option IconSegment),
      (c.setOutput k seg).expanded = c.expanded ∧
      (c.setOutput k seg).overrides k = seg ∧
      (∀ k2, k2 ≠ k → (c.setOutput k seg).overrides k2 = c.overrides k2)) ∧
    (∀ c i, ((batteryOutputFunc c i).1).expanded = c.expanded) ∧
    (∀ c i, ((wlanOutputFunc c i).1).expanded = c.expanded) ∧
    (∀ c w now, ((weatherOutputFunc c w now).1).expanded = c.expanded) := by
  refine ⟨?_, ?_, ?_, ?_⟩
  · intro c k seg
    refine ⟨rfl, by simp [ModalController.setOutput], ?_⟩
    intro k2 hk
    simp [ModalController.setOutput, hk]
  · intro c i
    unfold batteryOutputFunc
    split
    · rfl
    · rfl
  · intro c i
    unfold wlanOutputFunc
    split
    · rfl
    · split
      · rfl
      · rfl
  · intro c w now
    rfl

/-- Witness for C2 at concrete inputs. -/
theorem setOutput_frame_witness :
    (mainModalBuilt.setOutput "battery" (some (makeIconOutput "mdi-battery-50"))).overrides
        "network" = mainModalBuilt.overrides "network" ∧
    ((batteryOutputFunc mainModalBuilt ⟨.charging, 42, 1, 30⟩).1).expanded =
      mainModalBuilt.expanded :=
  ⟨(setOutput_frame.1 mainModalBuilt "battery" (some (makeIconOutput "mdi-battery-50"))).2.2
      "network" (by decide),
   setOutput_frame.2.1 mainModalBuilt ⟨.charging, 42, 1, 30⟩⟩

/-- Unfolding of `truncate` for a positive limit. -/
theorem truncate_pos_eq (s : String) (l : Int) (h : 0 < l) :
    truncate s l = if runeLen s ≤ l then some s
      else some (String.mk (s.data.take (l - 1).toNat) ++ ellipsis) := by
  have h1 : ¬ l < 0 := by omega
  have h2 : ¬ l = 0 := by omega
  simp [truncate, h1, h2]

/-- Unfolding of `truncate` for a negative limit. -/
theorem truncate_neg_eq (s : String) (l : Int) (h : l < 0) :
    truncate s l = if runeLen s ≤ -l then some s
      else some (ellipsis ++ String.mk (s.data.drop (runeLen s + l + 1).toNat)) := by
  simp [truncate, h]

/-- Unfolding of `truncate` at limit 0. -/
theorem truncate_zero_eq (s : String) :
    truncate s 0 = if runeLen s ≤ 0 then some s else none := by
  simp [truncate]

/-- C5: for every string and nonzero limit, `truncate` returns the string
unchanged when it fits; for a positive limit it does not fit, the first `l-1`
runes followed by a tail ellipsis, of rune length exactly `l`; for a negative
limit it does not fit, a head ellipsis followed by the last `-l-1` runes
(the suffix at `runeLen s + l + 1`), of rune length exactly `-l`. -/
theorem truncate_spec (s : String) (l : Int) :
    (0 < l → runeLen s ≤ l → truncate s l = some s) ∧
    (0 < l → l < runeLen s →
      ∃ r, truncate s l = some r ∧
        r.data = s.data.take (l - 1).toNat ++ [ellipsisChar] ∧
        runeLen r = l) ∧
    (l < 0 → -l < runeLen s →
      ∃ r, truncate s l = some r ∧
        r.data = ellipsisChar :: s.data.drop (runeLen s + l + 1).toNat ∧
        runeLen r = -l) := by
  refine ⟨?_, ?_, ?_⟩
  · intro h1 h2
    rw [truncate_pos_eq s l h1, if_pos h2]
  · intro h1 h2
    refine ⟨String.mk (s.data.take (l - 1).toNat) ++ ellipsis, ?_, ?_, ?_⟩
    · rw [truncate_pos_eq s l h1, if_neg (by omega)]
    · rw [String.data_append]
      rfl
    · have hlen : (String.mk (s.data.take (l - 1).toNat) ++ ellipsis).length
          = (s.data.take (l - 1).toNat).length + 1 := by
        rw [String.length_append, String.length_mk]
        rfl
      have htake : (s.data.take (l - 1).toNat).length = (l - 1).toNat := by
        rw [List.length_take]
        have : (s.data.length : Int) = runeLen s := rfl
        omega
      unfold runeLen
      rw [hlen, htake]
      omega
  · intro h1 h2
    unfold runeLen at h2 ⊢
    refine ⟨ellipsis ++ String.mk (s.data.drop ((s.length : Int) + l + 1).toNat), ?_, ?_, ?_⟩
    · rw [truncate_neg_eq s l h1]
      · rw [if_neg (by unfold runeLen; omega)]
        rfl
    · rw [String.data_append]
      rfl
    · have hlen : (ellipsis ++ String.mk (s.data.drop ((s.length : Int) + l + 1).toNat)).length
          = 1 + (s.data.drop ((s.length : Int) + l + 1).toNat).length := by
        rw [String.length_append, String.length_mk]
        rfl
      have hdrn : (s.data.drop ((s.length : Int) + l + 1).toNat).length
          = s.data.length - ((s.length : Int) + l + 1).toNat := by
        rw [List.length_drop]
      have hsd : s.length = s.data.length := rfl
      rw [hlen, hdrn]
      omega

/-- Witness for C5 at concrete inputs. -/
theorem truncate_spec_witness :
    (∃ r, truncate "abcdefgh" 4 = some r ∧
        r.data = ("abcdefgh").data.take ((4 : Int) - 1).toNat ++ [ellipsisChar] ∧
        runeLen r = 4) ∧
    (∃ r, truncate "abcdefgh" (-4) = some r ∧
        r.data = ellipsisChar ::
          ("abcdefgh").data.drop (runeLen "abcdefgh" + (-4) + 1).toNat ∧
        runeLen r = -(-4)) :=
  ⟨(truncate_spec "abcdefgh" 4).2.1 (by decide) (by decide),
   (truncate_spec "abcdefgh" (-4)).2.2 (by decide) (by decide)⟩

/-- Integers already inside the int64 range are fixed points of `intWrap`. -/
theorem intWrap_eq_self (x : Int) (h1 : -9223372036854775808 ≤ x)
    (h2 : x < 9223372036854775808) : intWrap x = x := by
  unfold intWrap
  omega

/-- Unfolding of `truncateInt64` for a positive limit: no arithmetic wraps,
so it coincides with the exact-arithmetic unfolding. -/
theorem truncateInt64_pos_eq (s : String) (l : Int) (h : 0 < l) :
    truncateInt64 s l = if runeLen s ≤ l then some s
      else some (String.mk (s.data.take (l - 1).toNat) ++ ellipsis) := by
  have h1 : ¬ l < 0 := by omega
  have h2 : ¬ l = 0 := by omega
  simp [truncateInt64, h1, h2]

/-- Unfolding of `truncateInt64` for a negative limit above math.MinInt64 on a
string of Go-representable length: the wrapped negation and slice index equal
their exact values. -/
theorem truncateInt64_neg_eq (s : String) (l : Int)
    (hs : runeLen s < 9223372036854775807)
    (h1 : -9223372036854775808 < l) (h2 : l < 0) :
    truncateInt64 s l = if runeLen s ≤ -l then some s
      else some (ellipsis ++ String.mk (s.data.drop (runeLen s + l + 1).toNat)) := by
  have hrl : 0 ≤ runeLen s := by
    unfold runeLen
    omega
  have hw : intWrap (-l) = -l := intWrap_eq_self (-l) (by omega) (by omega)
  by_cases hfit : runeLen s ≤ -l
  · simp [truncateInt64, h2, hw, hfit]
  · have hidx : intWrap (runeLen s + l + 1) = runeLen s + l + 1 :=
      intWrap_eq_self (runeLen s + l + 1) (by omega) (by omega)
    have hbound : ¬ (runeLen s + l + 1 < 0 ∨ runeLen s < runeLen s + l + 1) := by
      omega
    simp [truncateInt64, h2, hw, hfit, hidx, hbound]

/-- Unfolding of `truncateInt64` at limit 0. -/
theorem truncateInt64_zero_eq (s : String) :
    truncateInt64 s 0 = if runeLen s ≤ 0 then some s else none := by
  simp [truncateInt64]

/-- At math.MinInt64, Go's `l = -l` wraps back to math.MinInt64 and the slice
index `inLen-l+1` overflows to a negative value, so `truncateInt64` panics on
every string of Go-representable length. -/
theorem truncateInt64_minInt_eq (s : String)
    (hs : runeLen s < 9223372036854775807) :
    truncateInt64 s (-9223372036854775808) = none := by
  have hrl : 0 ≤ runeLen s := by
    unfold runeLen
    omega
  have hw : intWrap 9223372036854775808 = -9223372036854775808 := by
    unfold intWrap
    omega
  have hfit : ¬ runeLen s ≤ (-9223372036854775808 : Int) := by omega
  have hidx : intWrap (runeLen s + 9223372036854775808 + 1) =
      runeLen s + 1 - 9223372036854775808 := by
    unfold intWrap
    omega
  have hbound : runeLen s + 1 - 9223372036854775808 < 0 ∨
      runeLen s < runeLen s + 1 - 9223372036854775808 := by omega
  simp [truncateInt64, hw, hfit, hidx, hbound]
  omega

/-- C10 counterexample: the limit math.MinInt64 = -9223372036854775808 is
nonzero, yet under Go's wrapping 64-bit arithmetic `truncate` panics there on
every string — shown at "a" and at the empty string — so `truncate` is not
total for every nonzero limit. -/
theorem truncateInt64_minInt_panics :
    truncateInt64 "a" (-9223372036854775808) = none ∧
    truncateInt64 "" (-9223372036854775808) = none ∧
    (-9223372036854775808 : Int) ≠ 0 :=
  ⟨by decide, by decide, by decide⟩

/-- C10 (amended): over Go's 64-bit int arithmetic, `truncate` is total for
every nonzero limit in the int64 range other than math.MinInt64 — where the
negation wraps and the overflowed slice index panics for every string — and
not at zero: every non-empty string panics at limit 0 (the negative slice
bound), reachable from `mediaFormatFunc`, whose title budget `70-len(artist)`
is exactly 0 at a 35-rune, 70-byte Artist; away from limit 0 and
math.MinInt64, the wrapping and exact-arithmetic embeddings agree. -/
theorem truncate_total_except_zero_and_minInt :
    (∀ (s : String) (l : Int), runeLen s < 9223372036854775807 →
      -9223372036854775808 ≤ l → l < 9223372036854775808 →
      l ≠ 0 → l ≠ -9223372036854775808 →
      (truncateInt64 s l).isSome = true) ∧
    (∀ s : String, runeLen s < 9223372036854775807 →
      truncateInt64 s (-9223372036854775808) = none) ∧
    (∀ s : String, s ≠ "" → truncateInt64 s 0 = none) ∧
    (∀ (s : String) (l : Int), runeLen s < 9223372036854775807 →
      -9223372036854775808 < l → l < 9223372036854775808 →
      truncateInt64 s l = truncate s l) ∧
    mediaFormatFunc ⟨.playing, "ÄÄÄÄÄÄÄÄÄÄÄÄÄÄÄÄÄÄÄÄÄÄÄÄÄÄÄÄÄÄÄÄÄÄÄ", "x"⟩ = none := by
  refine ⟨?_, truncateInt64_minInt_eq, ?_, ?_, by decide⟩
  · intro s l hs hlo hhi hne hnm
    rcases lt_or_gt_of_ne hne with h1 | h1
    · rw [truncateInt64_neg_eq s l hs (by omega) h1]
      split <;> rfl
    · rw [truncateInt64_pos_eq s l h1]
      split <;> rfl
  · intro s h
    have hd : s.data ≠ [] := by
      intro hnil
      apply h
      cases s
      simp_all
    have hlen : 0 < s.data.length := List.length_pos.2 hd
    have hrl : ¬ runeLen s ≤ 0 := by
      unfold runeLen
      have hsd : s.length = s.data.length := rfl
      omega
    rw [truncateInt64_zero_eq, if_neg hrl]
  · intro s l hs hlo hhi
    rcases lt_trichotomy l 0 with h1 | h1 | h1
    · rw [truncateInt64_neg_eq s l hs hlo h1, truncate_neg_eq s l h1]
    · subst h1
      rw [truncateInt64_zero_eq, truncate_zero_eq]
    · rw [truncateInt64_pos_eq s l h1, truncate_pos_eq s l h1]

/-- Witness for C10 at concrete inputs. -/
theorem truncate_total_except_zero_and_minInt_witness :
    (truncateInt64 "ab" (-1)).isSome = true ∧
    truncateInt64 "ab" (-9223372036854775808) = none ∧
    truncateInt64 "ab" 0 = none ∧
    truncateInt64 "abcdef" (-4) = truncate "abcdef" (-4) :=
  ⟨truncate_total_except_zero_and_minInt.1 "ab" (-1) (by decide) (by decide)
      (by decide) (by decide) (by decide),
   truncate_total_except_zero_and_minInt.2.1 "ab" (by decide),
   truncate_total_except_zero_and_minInt.2.2.1 "ab" (by decide),
   truncate_total_except_zero_and_minInt.2.2.2.1 "abcdef" (-4) (by decide)
      (by decide) (by decide)⟩



/-- C4 counterexample: at Artist = 10 two-byte runes, Title = 60 ASCII runes,
the title fits the claimed character-count budget (60 runes available), yet
the code truncates it to 50 runes, because the budget is computed from the
artist's 20-byte length: byte-based and character-based budgeting disagree. -/
theorem mediaFormat_byte_budget_cex :
    mediaFormatText "ÄÄÄÄÄÄÄÄÄÄ"
        "aaaaaaaaaaaaaaaaaaaaaaaaaaaaaaaaaaaaaaaaaaaaaaaaaaaaaaaaaaaa" ≠
      mediaFormatTextChars "ÄÄÄÄÄÄÄÄÄÄ"
        "aaaaaaaaaaaaaaaaaaaaaaaaaaaaaaaaaaaaaaaaaaaaaaaaaaaaaaaaaaaa" ∧
    runeLen "aaaaaaaaaaaaaaaaaaaaaaaaaaaaaaaaaaaaaaaaaaaaaaaaaaaaaaaaaaaa" ≤
      70 - runeLen "ÄÄÄÄÄÄÄÄÄÄ" ∧
    mediaFormatText "ÄÄÄÄÄÄÄÄÄÄ"
        "aaaaaaaaaaaaaaaaaaaaaaaaaaaaaaaaaaaaaaaaaaaaaaaaaaaaaaaaaaaa" =
      some ("ÄÄÄÄÄÄÄÄÄÄ", "aaaaaaaaaaaaaaaaaaaaaaaaaaaaaaaaaaaaaaaaaaaaaaaaa⋯") :=
  ⟨by decide, by decide, by decide⟩

/-- C4 (amended): truncation itself operates on runes and never splits a
multi-byte glyph — every successful `truncate` result is the input, a rune
prefix of the input followed by the ellipsis glyph, or the ellipsis glyph
followed by a rune suffix of the input — but `mediaFormatText` computes each
field's remaining budget from the other field's UTF-8 byte length (`goLen`),
not its character count. -/
theorem truncate_never_splits_glyphs :
    (∀ (s : String) (l : Int) (r : String), truncate s l = some r →
      r = s ∨ (∃ n, r.data = s.data.take n ++ [ellipsisChar]) ∨
        (∃ n, r.data = ellipsisChar :: s.data.drop n)) ∧
    (∀ a t art, truncate a 35 = some art →
      mediaFormatText a t =
        match truncate t (70 - goLen art) with
        | none => none
        | some ti =>
          if goLen ti < 35 then
            (truncate a (35 - goLen ti)).map (fun a2 => (a2, ti))
          else some (art, ti)) := by
  constructor
  · intro s l r h
    rcases lt_trichotomy l 0 with h1 | h1 | h1
    · rw [truncate_neg_eq s l h1] at h
      split at h
      · left
        exact (Option.some.inj h).symm
      · right; right
        refine ⟨(runeLen s + l + 1).toNat, ?_⟩
        rw [← Option.some.inj h, String.data_append]
        rfl
    · subst h1
      rw [truncate_zero_eq] at h
      split at h
      · left
        exact (Option.some.inj h).symm
      · cases h
    · rw [truncate_pos_eq s l h1] at h
      split at h
      · left
        exact (Option.some.inj h).symm
      · right; left
        refine ⟨(l - 1).toNat, ?_⟩
        rw [← Option.some.inj h, String.data_append]
        rfl
  · intro a t art h
    cases htr : truncate t (70 - goLen art) with
    | none => simp [mediaFormatText, h, htr]
    | some ti =>
      by_cases hti : goLen ti < 35
      · simp only [mediaFormatText, h, htr, if_pos hti]
        cases truncate a (35 - goLen ti) <;> rfl
      · simp only [mediaFormatText, h, htr, if_neg hti]

/-- Witness for the amended C4 at concrete inputs. -/
theorem truncate_never_splits_glyphs_witness :
    ("a⋯" = "abcd" ∨ (∃ n, ("a⋯").data = ("abcd").data.take n ++ [ellipsisChar]) ∨
      (∃ n, ("a⋯").data = ellipsisChar :: ("abcd").data.drop n)) ∧
    mediaFormatText "abc" "xyz" =
      match truncate "xyz" (70 - goLen "abc") with
      | none => none
      | some ti =>
        if goLen ti < 35 then
          (truncate "abc" (35 - goLen ti)).map (fun a2 => (a2, ti))
        else some ("abc", ti) :=
  ⟨truncate_never_splits_glyphs.1 "abcd" 2 "a⋯" (by decide),
   truncate_never_splits_glyphs.2 "abc" "xyz" "abc" (by decide)⟩

/-- C3: evaluation at Artist = 40 ASCII runes, Title = "t": the truncated
title (1 rune) is far below its 33-rune allocation, yet instead of receiving
the surplus the artist is re-truncated to budget 35 − len("t") = 34 and
shrinks from 35 to 34 runes, leaving 35 of the 70 budgeted characters unused. -/
theorem mediaFormat_surplus_lost :
    mediaFormatText "aaaaaaaaaaaaaaaaaaaaaaaaaaaaaaaaaaaaaaaa" "t" =
      some ("aaaaaaaaaaaaaaaaaaaaaaaaaaaaaaaaa⋯", "t") ∧
    runeLen "aaaaaaaaaaaaaaaaaaaaaaaaaaaaaaaaa⋯" = 34 ∧
    runeLen "aaaaaaaaaaaaaaaaaaaaaaaaaaaaaaaaaaaaaaaa" = 40 ∧
    runeLen "aaaaaaaaaaaaaaaaaaaaaaaaaaaaaaaaa⋯" + runeLen "t" + 35 ≤ 70 :=
  ⟨by decide, by decide, by decide, by decide⟩

/-- C6: a module with nothing to show returns the Go nil output:
`mediaFormatFunc` for Stopped/Disconnected, the battery output function for
Disconnected/Unknown, and the netinfo output function when not Enabled. -/
theorem empty_output_when_nothing_to_show :
    (∀ m : MediaInfo,
      m.playbackStatus = .stopped ∨ m.playbackStatus = .disconnected →
      mediaFormatFunc m = some .nil) ∧
    (∀ (c : ModalController) (i : BatteryInfo),
      i.status = .disconnected ∨ i.status = .unknown →
      (batteryOutputFunc c i).2 = none) ∧
    (∀ i : NetinfoState, i.enabled = false → netOutputFunc i = none) := by
  refine ⟨?_, ?_, ?_⟩
  · intro m h
    unfold mediaFormatFunc
    rw [if_pos h]
  · intro c i h
    unfold batteryOutputFunc
    rw [if_pos h]
  · intro i h
    simp [netOutputFunc, h]

/-- Witness for C6 at concrete inputs. -/
theorem empty_output_when_nothing_to_show_witness :
    mediaFormatFunc ⟨.stopped, "a", "b"⟩ = some .nil ∧
    (batteryOutputFunc mainModalBuilt ⟨.disconnected, 50, 1, 2⟩).2 = none ∧
    netOutputFunc ⟨false, false, [], "eth0"⟩ = none :=
  ⟨empty_output_when_nothing_to_show.1 ⟨.stopped, "a", "b"⟩ (Or.inl rfl),
   empty_output_when_nothing_to_show.2.1 mainModalBuilt ⟨.disconnected, 50, 1, 2⟩ (Or.inl rfl),
   empty_output_when_nothing_to_show.2.2 ⟨false, false, [], "eth0"⟩ rfl⟩

/-- A registration seen before `Build()` survives appending further events. -/
theorem registeredBeforeBuild_append (k : String) (l1 l2 : List MainEvent)
    (h : registeredBeforeBuild k l1 = true) :
    registeredBeforeBuild k (l1 ++ l2) = true := by
  induction l1 with
  | nil => simp [registeredBeforeBuild] at h
  | cons e rest ih =>
    cases e <;> simp_all [registeredBeforeBuild]
    tauto

/-- C7: every mode key any click handler passes to `Toggle` is registered via
`mainModal.Mode(key)` before `Build()` is called, for every startup in which
`setupOauthEncryption` succeeds (otherwise startup panics first). -/
theorem toggled_keys_registered_before_build (env : ExternalEnv) (k : String)
    (h1 : env.oauthFails = false) (h2 : k ∈ toggledModeKeys) :
    registeredBeforeBuild k (mainStartup env) = true := by
  have hmain : mainStartup env =
      (MainEvent.setupOauth ::
        (preNetlinkModules ++
         [MainEvent.netlinkSubscribe, MainEvent.netlinkGet, MainEvent.netlinkUnsubscribe] ++
         postNetlinkModules env.homeOnSeparateDevice ++
         modeRegistrationEvents)) ++
        tzClocksThenRun env.zoneByName tzNames := by
    simp [mainStartup, h1, List.append_assoc]
  rw [hmain]
  apply registeredBeforeBuild_append
  cases hb : env.homeOnSeparateDevice <;>
    fin_cases h2 <;>
    simp [preNetlinkModules, postNetlinkModules, modeRegistrationEvents,
      registeredBeforeBuild]

/-- Witness for C7 at a concrete environment and key. -/
theorem toggled_keys_registered_before_build_witness :
    registeredBeforeBuild "timezones"
      (mainStartup
        { oauthFails := false, homeOnSeparateDevice := false,
          zoneByName := fun _ => true }) = true :=
  toggled_keys_registered_before_build
    { oauthFails := false, homeOnSeparateDevice := false, zoneByName := fun _ => true }
    "timezones" rfl (by decide)

/-- A failing timezone resolution makes the tail of the trace panic and never
reach `barista.Run`. -/
theorem tzClocksThenRun_failure (resolve : String → Bool) (l : List String)
    (h : ∃ tz ∈ l, resolve tz = false) :
    MainEvent.runBar ∉ tzClocksThenRun resolve l ∧
    MainEvent.panicked ∈ tzClocksThenRun resolve l := by
  induction l with
  | nil =>
    rcases h with ⟨tz, htz, _⟩
    simp at htz
  | cons tz rest ih =>
    by_cases hr : resolve tz = true
    · have hrest : ∃ z ∈ rest, resolve z = false := by
        rcases h with ⟨z, hz, hzf⟩
        rcases List.mem_cons.1 hz with rfl | hz2
        · rw [hr] at hzf
          cases hzf
        · exact ⟨z, hz2, hzf⟩
      have ih2 := ih hrest
      constructor
      · simp [tzClocksThenRun, hr, ih2.1]
      · simp [tzClocksThenRun, hr, ih2.2]
    · have hr2 : resolve tz = false := by
        revert hr
        cases resolve tz <;> simp
      simp [tzClocksThenRun, hr2]

/-- C8: when `setupOauthEncryption` returns an error or a timezone name fails
to resolve, `main` panics during startup and `barista.Run` is never reached. -/
theorem setup_failure_aborts_startup (env : ExternalEnv)
    (h : env.oauthFails = true ∨ ∃ tz ∈ tzNames, env.zoneByName tz = false) :
    MainEvent.runBar ∉ mainStartup env ∧ MainEvent.panicked ∈ mainStartup env := by
  by_cases ho : env.oauthFails = true
  · simp [mainStartup, ho]
  · have ho2 : env.oauthFails = false := by
      revert ho
      cases env.oauthFails <;> simp
    have htz : ∃ tz ∈ tzNames, env.zoneByName tz = false := by
      rcases h with h | h
      · exact absurd h ho
      · exact h
    have hz := tzClocksThenRun_failure env.zoneByName tzNames htz
    have hpost : MainEvent.runBar ∉ postNetlinkModules env.homeOnSeparateDevice := by
      cases env.homeOnSeparateDevice <;> decide
    constructor
    · intro hmem
      simp only [mainStartup, ho2, if_neg Bool.false_ne_true, List.mem_cons,
        List.mem_append] at hmem
      rcases hmem with h0 | ((((h1 | h2) | h3) | h4) | h5)
      · cases h0
      · revert h1; decide
      · revert h2; decide
      · exact hpost h3
      · revert h4; decide
      · exact hz.1 h5
    · simp only [mainStartup, ho2, if_neg Bool.false_ne_true, List.mem_cons,
        List.mem_append]
      exact Or.inr (Or.inr hz.2)

/-- Witness for C8 at a concrete environment. -/
theorem setup_failure_aborts_startup_witness :
    MainEvent.runBar ∉
      mainStartup
        { oauthFails := true, homeOnSeparateDevice := false,
          zoneByName := fun _ => true } ∧
    MainEvent.panicked ∈
      mainStartup
        { oauthFails := true, homeOnSeparateDevice := false,
          zoneByName := fun _ => true } :=
  setup_failure_aborts_startup
    { oauthFails := true, homeOnSeparateDevice := false, zoneByName := fun _ => true }
    (Or.inl rfl)

/-- The timezone tail of the trace contains no netlink events. -/
theorem tzClocksThenRun_no_netlink (resolve : String → Bool) (l : List String) :
    ∀ e ∈ tzClocksThenRun resolve l,
      e ≠ MainEvent.netlinkSubscribe ∧ e ≠ MainEvent.netlinkGet ∧
        e ≠ MainEvent.netlinkUnsubscribe := by
  induction l with
  | nil =>
    intro e he
    simp [tzClocksThenRun] at he
    rcases he with rfl | rfl <;> simp
  | cons tz rest ih =>
    intro e he
    by_cases hr : resolve tz = true
    · simp only [tzClocksThenRun, hr, if_pos, List.mem_cons] at he
      rcases he with rfl | he2
      · simp
      · exact ih e he2
    · have hr2 : resolve tz = false := by
        revert hr
        cases resolve tz <;> simp
      simp [tzClocksThenRun, hr2] at he
      subst he
      simp

/-- C9: whenever startup reaches the netlink one-shot read, the trace is a
prefix with no netlink activity, then subscribe/get/unsubscribe back to back,
then a suffix with no netlink activity that starts with the construction of
the netspeed module: the single `Get()` is immediately followed by
`Unsubscribe()`, before any further module construction. -/
theorem netlink_oneshot_unsubscribed (env : ExternalEnv)
    (h : env.oauthFails = false) :
    ∃ pre post,
      mainStartup env =
        pre ++ [MainEvent.netlinkSubscribe, MainEvent.netlinkGet,
          MainEvent.netlinkUnsubscribe] ++ post ∧
      (∀ e ∈ pre, e ≠ MainEvent.netlinkSubscribe ∧ e ≠ MainEvent.netlinkGet ∧
        e ≠ MainEvent.netlinkUnsubscribe) ∧
      (∀ e ∈ post, e ≠ MainEvent.netlinkSubscribe ∧ e ≠ MainEvent.netlinkGet ∧
        e ≠ MainEvent.netlinkUnsubscribe) ∧
      post.head? = some (MainEvent.moduleConstructed "netspeed") := by
  refine ⟨MainEvent.setupOauth :: preNetlinkModules,
    postNetlinkModules env.homeOnSeparateDevice ++ modeRegistrationEvents ++
      tzClocksThenRun env.zoneByName tzNames, ?_, ?_, ?_, ?_⟩
  · simp [mainStartup, h, List.append_assoc]
  · decide
  · intro e he
    rcases List.mem_append.1 he with he1 | he2
    · rcases List.mem_append.1 he1 with he3 | he4
      · have hall : ∀ x ∈ postNetlinkModules env.homeOnSeparateDevice,
            x ≠ MainEvent.netlinkSubscribe ∧ x ≠ MainEvent.netlinkGet ∧
              x ≠ MainEvent.netlinkUnsubscribe := by
          cases env.homeOnSeparateDevice <;> decide
        exact hall e he3
      · have hall2 : ∀ x ∈ modeRegistrationEvents,
            x ≠ MainEvent.netlinkSubscribe ∧ x ≠ MainEvent.netlinkGet ∧
              x ≠ MainEvent.netlinkUnsubscribe := by decide
        exact hall2 e he4
    · exact tzClocksThenRun_no_netlink env.zoneByName tzNames e he2
  · simp [postNetlinkModules]

/-- Witness for C9 at a concrete environment. -/
theorem netlink_oneshot_unsubscribed_witness :
    ∃ pre post,
      mainStartup
          { oauthFails := false, homeOnSeparateDevice := false,
            zoneByName := fun _ => true } =
        pre ++ [MainEvent.netlinkSubscribe, MainEvent.netlinkGet,
          MainEvent.netlinkUnsubscribe] ++ post ∧
      (∀ e ∈ pre, e ≠ MainEvent.netlinkSubscribe ∧ e ≠ MainEvent.netlinkGet ∧
        e ≠ MainEvent.netlinkUnsubscribe) ∧
      (∀ e ∈ post, e ≠ MainEvent.netlinkSubscribe ∧ e ≠ MainEvent.netlinkGet ∧
        e ≠ MainEvent.netlinkUnsubscribe) ∧
      post.head? = some (MainEvent.moduleConstructed "netspeed") :=
  netlink_oneshot_unsubscribed
    { oauthFails := false, homeOnSeparateDevice := false, zoneByName := fun _ => true }
    rfl

end CrystalBarista
